import Mathlib

/-!
Shallow embedding of the ask-and-route pipeline of `src/ask.js` (the question
answering gateway).  JavaScript strings become `String`, absent / `null` /
`undefined` values become `Option`, JS objects become structures, and the
stateful parts (retrieval calls, the HTTP response, background persistence)
become an explicit event trace produced by a pure handler function.  External
collaborators (the Gemini classifier call, the RAG retrieval service, account
lookup) are parameters of the model, exactly at the boundary where `ask.js`
calls them.
-/

/-- Model of JavaScript string truthiness for optional string values:
`undefined`, `null` and `""` are falsy; any other string is truthy.
Returns the value itself when truthy (the `x || null` idiom). -/
def truthyStr : Option String → Option String
  | some s => if s = "" then none else some s
  | none => none

/-- Model of `String.prototype.trim`: drops leading and trailing whitespace. -/
def jsTrim (s : String) : String :=
  String.mk (((s.toList.dropWhile Char.isWhitespace).reverse.dropWhile Char.isWhitespace).reverse)

/-- Whitespace-run tokenizer: the behaviour of `str.split(/\s+/)` on a string
with no leading and no trailing whitespace (the only way `ask.js` uses it,
always on a trimmed string).  A run of whitespace separates tokens. -/
def wsTokens : List Char → List Char → List String
  | acc, [] => if acc = [] then [] else [String.mk acc.reverse]
  | acc, c :: cs =>
    if Char.isWhitespace c then
      if acc = [] then wsTokens [] cs else String.mk acc.reverse :: wsTokens [] cs
    else wsTokens (c :: acc) cs

/-- Model of `s.split(/\s+/)` for strings without surrounding whitespace:
the empty string gives `[""]` (as in JavaScript), otherwise the tokens. -/
def jsSplitWs (s : String) : List String :=
  if s = "" then [""] else wsTokens [] s.toList

/-- Embedding of `generateSessionName` from `src/ask.js`: non-string or empty
questions give "New Session"; otherwise the trimmed question is split on
whitespace runs, kept whole when it has at most 10 words, and truncated to the
first 10 words plus "..." otherwise. -/
def generateSessionName (question : Option String) : String :=
  match question with
  | none => "New Session"
  | some q =>
    if q = "" then "New Session"
    else
      let words := jsSplitWs (jsTrim q)
      if words.length ≤ 10 then jsTrim q
      else String.intercalate " " (words.take 10) ++ "..."

/-- Embedding of the filename sanitizer used throughout `src/ask.js`:
`email.replace(/[^a-zA-Z0-9@._-]/g, "_")`. -/
def sanitizeChar (c : Char) : Char :=
  if c.isAlpha ∨ c.isDigit ∨ c = '@' ∨ c = '.' ∨ c = '_' ∨ c = '-' then c else '_'

/-- Embedding of the sanitizing replace on a whole string. -/
def sanitize (s : String) : String := String.mk (s.toList.map sanitizeChar)

/-- Unanswerable fragment as produced by the classifier
(`unanswered: [{ text, reason }]`). -/
structure Unanswered where
  text : String
  reason : String
deriving Repr, DecidableEq

/-- Message object appended to a chat session file by `src/ask.js`.
`unresolvedParts` and `searchedIn` model optional JSON fields (outer `none`
means the field is absent); the inner `Option` of `searchedIn` models JSON
`null`. -/
structure Message where
  role : String
  question : String
  answer : String
  storesUsed : List String
  grounding : List String
  timestamp : String
  unresolvedParts : Option (List Unanswered)
  searchedIn : Option (Option String)
deriving Repr, DecidableEq

/-- Session document as written to `chat_sessions/<safeEmail>__<sessionId>.json`. -/
structure Session where
  sessionId : String
  sessionName : String
  email : String
  createdAt : String
  updatedAt : String
  messages : List Message
deriving Repr, DecidableEq

/-- Conversation-store state: the `chat_sessions` directory, keyed by file
name, holding parsed session documents (a missing or unreadable file is
`none`). -/
def Store := String → Option Session

/-- Embedding of `getSessionFile`: the session file name
`<sanitized email>__<sessionId>.json` (the constant directory part is
dropped from the key). -/
def getSessionFile (email sessionId : String) : String :=
  sanitize email ++ "__" ++ sessionId ++ ".json"

/-- Embedding of `createSessionFile`: writes a fresh session document with no
messages, `createdAt = updatedAt = now`. -/
def createSessionFile (fs : Store) (email sessionId sessionName now : String) : Store :=
  fun k =>
    if k = getSessionFile email sessionId then
      some ⟨sessionId, sessionName, email, now, now, []⟩
    else fs k

/-- Embedding of `appendMessageToSessionFile`: read-modify-write appending the
message and updating `updatedAt`; if the file is missing, a session document is
synthesized on the fly with the name derived from the message's question. -/
def appendMessageToSessionFile (fs : Store) (email sessionId : String) (m : Message)
    (now : String) : Store :=
  match fs (getSessionFile email sessionId) with
  | some s =>
    fun k =>
      if k = getSessionFile email sessionId then
        some { s with messages := s.messages ++ [m], updatedAt := now }
      else fs k
  | none =>
    fun k =>
      if k = getSessionFile email sessionId then
        some ⟨sessionId, generateSessionName (some m.question), email, now, now, [m]⟩
      else fs k

/-- Embedding of `GET /session/:email/:sessionId`: reads and returns the
session file (`none` models the 404 path). -/
def getSessionRoute (fs : Store) (email sessionId : String) : Option Session :=
  fs (getSessionFile email sessionId)

/-- Summary row returned by `GET /sessions/:email`. -/
structure SessionSummary where
  sessionId : String
  sessionName : String
  createdAt : String
deriving Repr, DecidableEq

/-- Model of JavaScript `Number(s)` restricted to the inputs this code can
see: the empty string is 0, a plain digit string is its value, and anything
else (in particular every ISO-8601 timestamp, which contains dashes and
colons) is NaN, modeled as `none`. -/
def jsToNumberStr (s : String) : Option Int :=
  let t := jsTrim s
  if t = "" then some 0
  else if t.toList.all Char.isDigit then
    some (Int.ofNat (t.toList.foldl (fun a c => a * 10 + (c.toNat - 48)) 0))
  else none

/-- Embedding of the comparator `(b.createdAt || 0) - (a.createdAt || 0)` from
the sessions listing route: a JS subtraction whose operands are coerced with
`ToNumber`; `none` models a NaN result. -/
def sessionCmp (a b : SessionSummary) : Option Int :=
  match jsToNumberStr b.createdAt, jsToNumberStr a.createdAt with
  | some x, some y => some (x - y)
  | _, _ => none

/-- Stable insertion of one element, placing it before the first element the
comparator orders it strictly ahead of.  A NaN comparator value is coerced to
+0 exactly as ECMAScript SortCompare does. -/
def jsSortInsert (cmp : α → α → Option Int) (x : α) : List α → List α
  | [] => [x]
  | y :: ys => if (cmp x y).getD 0 < 0 then x :: y :: ys else y :: jsSortInsert cmp x ys

/-- Model of `Array.prototype.sort(cmp)`: a stable sort that only reorders
elements the comparator maps to a negative number (NaN counts as +0). -/
def jsSort (cmp : α → α → Option Int) (l : List α) : List α :=
  l.foldl (fun acc x => jsSortInsert cmp x acc) []

/-- Decides whether `p` is a leading substring of `s`. -/
def strStarts (p s : String) : Bool := decide (s.toList.take p.length = p.toList)

/-- Embedding of `GET /sessions/:email`: the directory listing is a list of
(file name, parsed session document) pairs in readdir order; files with the
owner's sanitized-email double-underscore leader are projected to summaries
and passed through the (ineffective, see `sessionCmp`) sort. -/
def listSessions (dirFiles : List (String × Session)) (email : String) : List SessionSummary :=
  let safe := sanitize email
  let sums := dirFiles.filterMap (fun fp =>
    if strStarts (safe ++ "__") fp.1 then
      some ⟨fp.2.sessionId, fp.2.sessionName, fp.2.createdAt⟩
    else none)
  jsSort sessionCmp sums

example : generateSessionName (some "What time does the library open on weekdays?")
    = "What time does the library open on weekdays?" := by decide

example : generateSessionName (some "one two three four five six seven eight nine ten eleven")
    = "one two three four five six seven eight nine ten..." := by decide

example : generateSessionName (some " hi") = "hi" := by decide

/-- Opening brace character (written via its code point). -/
def lbrace : Char := Char.ofNat 123

/-- Closing brace character (written via its code point). -/
def rbrace : Char := Char.ofNat 125

/-- JSON values as produced by `JSON.parse`.  Numbers are modeled as integers;
every JSON document this component exchanges (classification results) is
number-free, so the restriction is immaterial here. -/
inductive Json where
  | null : Json
  | bool (b : Bool) : Json
  | num (n : Int) : Json
  | str (s : String) : Json
  | arr (elems : List Json) : Json
  | obj (fields : List (String × Json)) : Json
deriving Repr

/-- JSON insignificant whitespace. -/
def jsonWs (c : Char) : Bool := c = ' ' ∨ c = '\t' ∨ c = '\n' ∨ c = '\r'

/-- Drops leading JSON whitespace. -/
def skipJsonWs (l : List Char) : List Char := l.dropWhile jsonWs

/-- Value of one hexadecimal digit. -/
def hexDigitVal (c : Char) : Option Nat :=
  if c.isDigit then some (c.toNat - 48)
  else if 'a' ≤ c ∧ c ≤ 'f' then some (c.toNat - 87)
  else if 'A' ≤ c ∧ c ≤ 'F' then some (c.toNat - 55)
  else none

/-- Parses a JSON string body (the opening quote already consumed), handling
the standard escapes. -/
def parseJsonString (acc : List Char) : List Char → Option (String × List Char)
  | [] => none
  | c :: cs =>
    if c = '"' then some (String.mk acc.reverse, cs)
    else if c = '\\' then
      match cs with
      | [] => none
      | e :: cs2 =>
        if e = '"' then parseJsonString ('"' :: acc) cs2
        else if e = '\\' then parseJsonString ('\\' :: acc) cs2
        else if e = '/' then parseJsonString ('/' :: acc) cs2
        else if e = 'n' then parseJsonString ('\n' :: acc) cs2
        else if e = 't' then parseJsonString ('\t' :: acc) cs2
        else if e = 'r' then parseJsonString ('\r' :: acc) cs2
        else if e = 'b' then parseJsonString (Char.ofNat 8 :: acc) cs2
        else if e = 'f' then parseJsonString (Char.ofNat 12 :: acc) cs2
        else if e = 'u' then
          match cs2 with
          | h1 :: h2 :: h3 :: h4 :: cs3 =>
            match hexDigitVal h1, hexDigitVal h2, hexDigitVal h3, hexDigitVal h4 with
            | some a, some b, some c3, some d4 =>
              parseJsonString (Char.ofNat (a * 4096 + b * 256 + c3 * 16 + d4) :: acc) cs3
            | _, _, _, _ => none
          | _ => none
        else none
    else parseJsonString (c :: acc) cs

/-- Reads a maximal run of decimal digits, returning the accumulated value and
the remaining input. -/
def parseDigits (acc : Nat) : List Char → Nat × List Char
  | [] => (acc, [])
  | c :: cs => if c.isDigit then parseDigits (acc * 10 + (c.toNat - 48)) cs else (acc, c :: cs)

/-- Rejects a numeric literal that continues with a fraction or exponent (the
integer-only restriction of this model). -/
def numTailOk (l : List Char) : Bool :=
  match l with
  | [] => true
  | c :: _ => ¬ (c = '.' ∨ c = 'e' ∨ c = 'E')

mutual

/-- Recursive-descent JSON value parser, fueled to make termination evident. -/
def parseJsonValue : Nat → List Char → Option (Json × List Char)
  | 0, _ => none
  | Nat.succ fuel, input =>
    match skipJsonWs input with
    | [] => none
    | c :: cs =>
      if c = '"' then
        match parseJsonString [] cs with
        | some (s, rest) => some (Json.str s, rest)
        | none => none
      else if c = lbrace then
        match skipJsonWs cs with
        | [] => none
        | d :: ds =>
          if d = rbrace then some (Json.obj [], ds)
          else
            match parseJsonObjItems fuel (d :: ds) with
            | some (kvs, rest) => some (Json.obj kvs, rest)
            | none => none
      else if c = '[' then
        match skipJsonWs cs with
        | [] => none
        | d :: ds =>
          if d = ']' then some (Json.arr [], ds)
          else
            match parseJsonArrItems fuel (d :: ds) with
            | some (vs, rest) => some (Json.arr vs, rest)
            | none => none
      else if c = 't' then
        match cs with
        | 'r' :: 'u' :: 'e' :: rest => some (Json.bool true, rest)
        | _ => none
      else if c = 'f' then
        match cs with
        | 'a' :: 'l' :: 's' :: 'e' :: rest => some (Json.bool false, rest)
        | _ => none
      else if c = 'n' then
        match cs with
        | 'u' :: 'l' :: 'l' :: rest => some (Json.null, rest)
        | _ => none
      else if c = '-' then
        match cs with
        | d :: _ =>
          if d.isDigit then
            match parseDigits 0 cs with
            | (n, rest) => if numTailOk rest then some (Json.num (-(Int.ofNat n)), rest) else none
          else none
        | [] => none
      else if c.isDigit then
        match parseDigits 0 (c :: cs) with
        | (n, rest) => if numTailOk rest then some (Json.num (Int.ofNat n), rest) else none
      else none

/-- Parses the comma-separated items of a nonempty JSON array, up to and
including the closing bracket. -/
def parseJsonArrItems : Nat → List Char → Option (List Json × List Char)
  | 0, _ => none
  | Nat.succ fuel, input =>
    match parseJsonValue fuel input with
    | none => none
    | some (v, rest) =>
      match skipJsonWs rest with
      | ',' :: rest2 =>
        match parseJsonArrItems fuel rest2 with
        | some (vs, rest3) => some (v :: vs, rest3)
        | none => none
      | ']' :: rest2 => some ([v], rest2)
      | _ => none

/-- Parses the comma-separated members of a nonempty JSON object, up to and
including the closing brace. -/
def parseJsonObjItems : Nat → List Char → Option (List (String × Json) × List Char)
  | 0, _ => none
  | Nat.succ fuel, input =>
    match skipJsonWs input with
    | '"' :: cs =>
      match parseJsonString [] cs with
      | none => none
      | some (k, rest) =>
        match skipJsonWs rest with
        | ':' :: rest2 =>
          match parseJsonValue fuel rest2 with
          | none => none
          | some (v, rest3) =>
            match skipJsonWs rest3 with
            | [] => none
            | c2 :: rest4 =>
              if c2 = ',' then
                match parseJsonObjItems fuel rest4 with
                | some (kvs, rest5) => some ((k, v) :: kvs, rest5)
                | none => none
              else if c2 = rbrace then some ([(k, v)], rest4)
              else none
        | _ => none
    | _ => none

end

/-- Model of `JSON.parse`: parses one value and requires only whitespace to
remain. -/
def Json.parse (s : String) : Option Json :=
  match parseJsonValue (2 * s.length + 8) s.toList with
  | some (v, rest) => if skipJsonWs rest = [] then some v else none
  | none => none

example : Json.parse "  \x7b\"a\": [1, \"b\", true, null]\x7d " =
    some (Json.obj [("a", Json.arr [Json.num 1, Json.str "b", Json.bool true, Json.null])]) := rfl

example : Json.parse "\x7b\"a\":1\x7d\x7b" = none := rfl

/-- Outcome of the external Gemini `generateContent` call as observed by
`classifyStores`: the promise rejects (or any step inside the `try` throws), or
it yields a response whose extracted text is `txt` (the code coalesces a
missing text to `""`). -/
inductive GeminiOutcome where
  | throws : GeminiOutcome
  | returns (txt : String) : GeminiOutcome

/-- Degraded classification returned by every fallback path of
`classifyStores`: all offered stores, no splitting, nothing unanswered. -/
def selectAllFallback (stores : List String) : Json :=
  Json.obj [("stores", Json.arr (stores.map Json.str)),
            ("split_questions", Json.obj []),
            ("unanswered", Json.arr [])]

/-- Classification returned when the external response text is empty:
no stores, no splitting, nothing unanswered. -/
def emptyClassification : Json :=
  Json.obj [("stores", Json.arr []),
            ("split_questions", Json.obj []),
            ("unanswered", Json.arr [])]

/-- Index of the last occurrence of a character. -/
def lastIdxOf (l : List Char) (c : Char) : Option Nat :=
  match List.findIdx? (fun x => x = c) l.reverse with
  | some i => some (l.length - 1 - i)
  | none => none

/-- Embedding of `raw.slice(raw.indexOf("{"), raw.lastIndexOf("}") + 1)`
guarded by both indexes existing, as in `classifyStores`. -/
def sliceFirstToLastBrace (raw : String) : Option String :=
  match List.findIdx? (fun x => x = lbrace) raw.toList, lastIdxOf raw.toList rbrace with
  | some s, some e => some (String.mk ((raw.toList.drop s).take (e + 1 - s)))
  | _, _ => none

/-- Embedding of `classifyStores(geminiKey, stores, question)` from
`src/ask.js`.  The external call is abstracted by `outcome`; everything after
it is translated statement by statement: falsy key → select-all fallback; a
thrown error → select-all fallback; empty text → empty classification; direct
`JSON.parse` of the trimmed text; on failure, `JSON.parse` of the slice from
the first opening brace to the last closing brace; on failure again,
select-all fallback.  The parsed JSON is returned as-is, unvalidated.
The `question` argument only feeds the external prompt. -/
def classifyStores (geminiKey : Option String) (stores : List String) (question : String)
    (outcome : GeminiOutcome) : Json :=
  match truthyStr geminiKey with
  | none => selectAllFallback stores
  | some _ =>
    match outcome with
    | GeminiOutcome.throws => selectAllFallback stores
    | GeminiOutcome.returns txt =>
      if txt = "" then emptyClassification
      else
        let raw := jsTrim txt
        match Json.parse raw with
        | some j => j
        | none =>
          match sliceFirstToLastBrace raw with
          | some sub =>
            match Json.parse sub with
            | some j => j
            | none => selectAllFallback stores
          | none => selectAllFallback stores

/-- Modelled from the spec: "if the raw response is not directly parseable,
attempts to extract the first balanced top-level structure".  The repository
has no such routine (`classifyStores` slices from the first opening brace to
the LAST closing brace instead); this definition follows the spec's words —
the shortest substring that starts at the first opening brace and has balanced
braces — for comparison against the code. -/
def balancedScan (depth : Nat) (acc : List Char) : List Char → Option String
  | [] => none
  | c :: cs =>
    if c = lbrace then balancedScan (depth + 1) (c :: acc) cs
    else if c = rbrace then
      if depth = 1 then some (String.mk (c :: acc).reverse)
      else balancedScan (depth - 1) (c :: acc) cs
    else balancedScan depth (c :: acc) cs

/-- Modelled from the spec: the first balanced top-level brace structure of
`raw`, if any (see `balancedScan`). -/
def extractFirstBalanced (raw : String) : Option String :=
  balancedScan 0 [] (raw.toList.dropWhile (fun c => ¬ c = lbrace))

example : classifyStores (some "k") ["s1", "s2"] "q" (GeminiOutcome.returns "junk text")
    = selectAllFallback ["s1", "s2"] := rfl

example : classifyStores none ["s1"] "q" (GeminiOutcome.returns "\x7b\"stores\":[]\x7d")
    = selectAllFallback ["s1"] := rfl

example : classifyStores (some "k") ["s1"] "q"
    (GeminiOutcome.returns "text \x7b\"stores\":[\"s1\"]\x7d more")
    = Json.obj [("stores", Json.arr [Json.str "s1"])] := rfl

example : extractFirstBalanced "ab \x7b\"a\":\x7b\x7d\x7d \x7b\"b\":1\x7d"
    = some "\x7b\"a\":\x7b\x7d\x7d" := rfl

/-- Entry of `student.accessibleStores`: a store name plus the owning
provider's account email (optional field). -/
structure AccessibleStore where
  storeName : String
  accountEmail : Option String
deriving Repr, DecidableEq

/-- Student account record as read by `readStudent` (the fields `ask.js`
uses). -/
structure Student where
  accessibleStores : List AccessibleStore
  universityEmail : String
deriving Repr, DecidableEq

/-- The `apiKeyInfo` object on a university record. -/
structure ApiKeyInfo where
  key : String
deriving Repr, DecidableEq

/-- University record as read by `readUniversity` (the field `ask.js` uses). -/
structure University where
  apiKeyInfo : Option ApiKeyInfo
deriving Repr, DecidableEq

/-- One grounding chunk of a RAG response; `retrievedText` models
`chunk.retrievedContext.text`, `none` when the context or its text is
absent. -/
structure GroundingChunk where
  retrievedText : Option String
deriving Repr, DecidableEq

/-- Successful RAG response payload (`ragResp.data`): the answer text and the
grounding chunks (`grounding_metadata?.groundingChunks || []` folded to a
list). -/
structure RagData where
  response_text : String
  groundingChunks : List GroundingChunk
deriving Repr, DecidableEq

/-- Typed classification result as consumed by the orchestrator after its
defaulting reads (`classification.stores || []` etc.); `split_questions` is
the store-to-rewritten-question mapping as an association list. -/
structure Classification where
  stores : List String
  split_questions : List (String × String)
  unanswered : List Unanswered
deriving Repr, DecidableEq

/-- Provider audit-log entry as appended by `appendProviderLog`.  `response`
is `none` for JSON null; `grounding` is `none` when the field is absent (the
failure-branch log omits it). -/
structure ProviderLogEntry where
  provider_email : Option String
  user_email : String
  store_name : String
  question : String
  response : Option String
  grounding : Option (List GroundingChunk)
  asked_at : String
deriving Repr, DecidableEq

/-- HTTP response sent by `POST /ask`, one constructor per distinct
`res.json` / error shape in the source. -/
inductive Resp where
  | badRequest (error : String) : Resp
  | notFound (error : String) : Resp
  | noStores (sessionId : Option String) (answer : String)
      (storesUsed : List String) (grounding : List String) : Resp
  | noneSelected (sessionId : String) (answer : String)
      (storesUsed : List String) (unanswered : List Unanswered) : Resp
  | ragFailed (sessionId : String) (answer : String) (searchedIn : Option String) : Resp
  | success (sessionId : String) (answer : String)
      (storesUsed : List String) (grounding : List String) : Resp
deriving Repr, DecidableEq

/-- Observable action of one `/ask` request, in program order: an external
retrieval call, the HTTP response, or one background persistence step. -/
inductive Event where
  | respond (r : Resp) : Event
  | ragCall (store : String) (question : String) : Event
  | sessionCreate (email sessionId sessionName now : String) : Event
  | msgAppend (email sessionId : String) (m : Message) : Event
  | provLog (key : String) (entry : ProviderLogEntry) : Event
deriving Repr, DecidableEq

/-- Request body of `POST /ask` (each field may be absent). -/
structure AskReq where
  email : Option String
  question : Option String
  sessionId : Option String
deriving Repr, DecidableEq

/-- Environment of one `/ask` request: the account and university lookups, the
RAG service (`RAGService.askQuestion(apiKey, stores, question)`, `none` for a
missing/failed/empty result), the classifier adapter outcome (abstracting the
awaited `classifyStores` result after the orchestrator's defaulting reads),
the fresh session id minted when none is supplied, and the clock. -/
structure AskEnv where
  readStudent : String → Option Student
  readUniversity : String → Option University
  ragService : Option String → List String → String → Option RagData
  classify : Option String → List String → String → Classification
  freshId : String
  now : String

/-- Embedding of the per-store question choice
`(splitQuestions && splitQuestions[store]) ? splitQuestions[store] : question`
(a falsy — empty — split entry also falls back to the whole question). -/
def qFor (sq : List (String × String)) (question store : String) : String :=
  match (List.find? (fun p => p.1 = store) sq).map (fun p => p.2) with
  | some v => if v = "" then question else v
  | none => question

/-- Embedding of the grounding collection loop: the truthy
`retrievedContext.text` of each chunk, in chunk order. -/
def chunkTexts (cs : List GroundingChunk) : List String :=
  cs.filterMap (fun c =>
    match c.retrievedText with
    | some t => if t = "" then none else some t
    | none => none)

/-- Embedding of `accessible.find(x => x.storeName === store)` followed by the
truthy read of its `accountEmail` (`dept?.accountEmail || null`). -/
def resolveProvider (accessible : List AccessibleStore) (store : String) : Option String :=
  truthyStr ((List.find? (fun x => x.storeName = store) accessible).bind
    (fun d => d.accountEmail))

/-- One successful per-store RAG result as accumulated in `ragResults`. -/
structure RagResult where
  store : String
  answerText : String
  groundingChunks : List GroundingChunk
deriving Repr, DecidableEq

/-- Embedding of the merge step: a single store's answer verbatim, otherwise
the labeled sections joined with blank lines. -/
def mergeAnswers : List RagResult → String
  | [r] => r.answerText
  | rs => String.intercalate "\n\n" (rs.map (fun r => "**" ++ r.store ++ "**:\n" ++ r.answerText))

/-- State accumulated by the sequential fan-out loop: the retrieval calls
issued, the successful results in order, the flattened grounding texts, and
the first failed store if any (at which point the loop stops). -/
structure FanoutAcc where
  events : List Event
  results : List RagResult
  grounding : List String
  failed : Option String
deriving Repr, DecidableEq

/-- Embedding of the `for (const store of predictedStores)` loop: stores are
queried strictly sequentially; the first failure ends the loop with `failed`
set; successes accumulate `ragResults` and `allGrounding`. -/
def fanout (rag : String → String → Option RagData) (sq : List (String × String))
    (question : String) : List String → FanoutAcc
  | [] => ⟨[], [], [], none⟩
  | s :: rest =>
    let q := qFor sq question s
    match rag s q with
    | none => ⟨[Event.ragCall s q], [], [], some s⟩
    | some d =>
      let acc := fanout rag sq question rest
      ⟨Event.ragCall s q :: acc.events,
       ⟨s, d.response_text, d.groundingChunks⟩ :: acc.results,
       chunkTexts d.groundingChunks ++ acc.grounding,
       acc.failed⟩

/-- Fixed answer of the zero-accessible-stores branch. -/
def noStoresAnswer : String := "No RAG stores available for your account."

/-- Fixed answer of the classifier-selected-no-store branch. -/
def noneSelAnswer : String := "Sorry, none of the departments can answer this."

/-- Fixed minimal apology answer of the short-circuit failure branch. -/
def apologyAnswer : String := "Sorry we didn't find any information related to this."

/-- Serving credential resolution:
`university?.apiKeyInfo?.key || null` over `readUniversity(student.universityEmail)`. -/
def geminiKeyOf (env : AskEnv) (student : Student) : Option String :=
  truthyStr (((env.readUniversity student.universityEmail).bind
    (fun u => u.apiKeyInfo)).map (fun k => k.key))

/-- Whether the request carries no (truthy) session id, so a new session is
minted. -/
def isNewOf (req : AskReq) : Bool := (truthyStr req.sessionId).isNone

/-- The session id used for the request: the supplied one, or the freshly
minted id. -/
def sidOf (env : AskEnv) (req : AskReq) : String :=
  match truthyStr req.sessionId with
  | some s => s
  | none => env.freshId

/-- The background session-creation step, present only for a new session. -/
def createEventsOf (isNew : Bool) (email sid sessionName now : String) : List Event :=
  if isNew then [Event.sessionCreate email sid sessionName now] else []

/-- Trace of the classifier-selected-no-store branch: respond, then create the
session if new, then append the assistant message carrying `unresolvedParts`. -/
def noneSelTrace (email question sid sessionName : String) (isNew : Bool)
    (un : List Unanswered) (now : String) : List Event :=
  Event.respond (Resp.noneSelected sid noneSelAnswer [] un) ::
  createEventsOf isNew email sid sessionName now ++
  [Event.msgAppend email sid ⟨"assistant", question, noneSelAnswer, [], [], now, some un, none⟩]

/-- Background persistence of the short-circuit failure branch: create the
session if new, append the assistant message, then log the failed attempt to
its provider — only when the provider resolves. -/
def failPersist (accessible : List AccessibleStore) (email question sid sessionName : String)
    (isNew : Bool) (sq : List (String × String)) (fstore : String) (now : String) :
    List Event :=
  createEventsOf isNew email sid sessionName now ++
  Event.msgAppend email sid
    ⟨"assistant", question, apologyAnswer, [fstore], [], now, none,
     some (resolveProvider accessible fstore)⟩ ::
  (match resolveProvider accessible fstore with
   | some p =>
     [Event.provLog p ⟨some p, email, fstore, qFor sq question fstore, none, none, now⟩]
   | none => [])

/-- Trace of the short-circuit failure branch: the retrieval calls made so
far, the apology response naming the failed store's provider, then the
background persistence. -/
def failTrace (accessible : List AccessibleStore) (email question sid sessionName : String)
    (isNew : Bool) (sq : List (String × String)) (fo : FanoutAcc) (fstore : String)
    (now : String) : List Event :=
  fo.events ++
  Event.respond (Resp.ragFailed sid apologyAnswer (resolveProvider accessible fstore)) ::
  failPersist accessible email question sid sessionName isNew sq fstore now

/-- Background persistence of the all-succeed branch: create the session if
new, append the assistant message, then one provider log per result in store
order (sentinel key "unknown" when the provider does not resolve). -/
def successPersist (accessible : List AccessibleStore) (email question sid sessionName : String)
    (isNew : Bool) (sq : List (String × String)) (stores : List String)
    (results : List RagResult) (grounding : List String) (now : String) : List Event :=
  createEventsOf isNew email sid sessionName now ++
  Event.msgAppend email sid
    ⟨"assistant", question, mergeAnswers results, stores, grounding, now, none, none⟩ ::
  results.map (fun r =>
    Event.provLog ((resolveProvider accessible r.store).getD "unknown")
      ⟨resolveProvider accessible r.store, email, r.store, qFor sq question r.store,
       some r.answerText, some r.groundingChunks, now⟩)

/-- Trace of the all-succeed branch: the retrieval calls, the merged response,
then the background persistence. -/
def successTrace (accessible : List AccessibleStore) (email question sid sessionName : String)
    (isNew : Bool) (sq : List (String × String)) (stores : List String) (fo : FanoutAcc)
    (now : String) : List Event :=
  fo.events ++
  Event.respond (Resp.success sid (mergeAnswers fo.results) stores fo.grounding) ::
  successPersist accessible email question sid sessionName isNew sq stores fo.results
    fo.grounding now

/-- Pipeline past the student lookup: the zero-stores early return, the
classification, and the three downstream branches, mirroring
`router.post("/ask")` line by line. -/
def askWithStudent (env : AskEnv) (req : AskReq) (email question : String)
    (student : Student) : List Event :=
  let accessible := student.accessibleStores
  let storeNames := accessible.map (fun s => s.storeName)
  if storeNames = [] then
    [Event.respond (Resp.noStores none noStoresAnswer [] [])]
  else
    let geminiKey := geminiKeyOf env student
    let sid := sidOf env req
    let sessionName := generateSessionName (some question)
    let cls := env.classify geminiKey storeNames question
    match cls.stores with
    | [] => noneSelTrace email question sid sessionName (isNewOf req) cls.unanswered env.now
    | s0 :: rest =>
      let fo := fanout (fun s q => env.ragService geminiKey [s] q) cls.split_questions
        question (s0 :: rest)
      match fo.failed with
      | some fstore =>
        failTrace accessible email question sid sessionName (isNewOf req)
          cls.split_questions fo fstore env.now
      | none =>
        successTrace accessible email question sid sessionName (isNewOf req)
          cls.split_questions (s0 :: rest) fo env.now

/-- Embedding of the `POST /ask` handler as the trace of its observable
actions: request validation, student lookup, then `askWithStudent`. -/
def askHandler (env : AskEnv) (req : AskReq) : List Event :=
  match truthyStr req.email, truthyStr req.question with
  | some email, some question =>
    (match env.readStudent email with
     | none => [Event.respond (Resp.notFound "Student not found")]
     | some student => askWithStudent env req email question student)
  | _, _ => [Event.respond (Resp.badRequest "email & question required")]

/-- Whether an event is an external retrieval call. -/
def isRagCallEv : Event → Bool
  | Event.ragCall _ _ => true
  | _ => false

/-- Whether an event is a background persistence step (session create, message
append, or provider log). -/
def isPersistEv : Event → Bool
  | Event.sessionCreate _ _ _ _ => true
  | Event.msgAppend _ _ _ => true
  | Event.provLog _ _ => true
  | _ => false

/-- Whether an event is a provider-log append. -/
def isProvLogEv : Event → Bool
  | Event.provLog _ _ => true
  | _ => false

/-- The store a retrieval-call event targets. -/
def evCallStore : Event → Option String
  | Event.ragCall s _ => some s
  | _ => none

/-- The store a provider-log event records. -/
def evLogStore : Event → Option String
  | Event.provLog _ en => some en.store_name
  | _ => none

/-- Fan-out over stores that all succeed (with `d` naming each store's RAG
payload): every store is called in order, all results and the flattened
grounding are accumulated, and no failure is recorded. -/
theorem fanout_all_ok (rag : String → String → Option RagData) (sq : List (String × String))
    (question : String) (d : String → RagData) :
    ∀ ss : List String, (∀ s ∈ ss, rag s (qFor sq question s) = some (d s)) →
      fanout rag sq question ss =
        ⟨ss.map (fun s => Event.ragCall s (qFor sq question s)),
         ss.map (fun s => ⟨s, (d s).response_text, (d s).groundingChunks⟩),
         (ss.map (fun s => chunkTexts (d s).groundingChunks)).flatten,
         none⟩ := by
  intro ss
  induction ss with
  | nil => intro _; rfl
  | cons s rest ih =>
    intro h
    have hs := h s (List.mem_cons_self s rest)
    have hrest := ih (fun x hx => h x (List.mem_cons_of_mem s hx))
    simp [fanout, hs, hrest]

/-- Fan-out where every store in `pre` succeeds and `f` is the first failure:
exactly the stores up to and including `f` are called, the successes before
`f` are the accumulated results, and the loop stops at `f` — the stores of
`post` are never queried. -/
theorem fanout_first_fail (rag : String → String → Option RagData)
    (sq : List (String × String)) (question : String) (d : String → RagData)
    (f : String) (post : List String)
    (hf : rag f (qFor sq question f) = none) :
    ∀ pre : List String, (∀ s ∈ pre, rag s (qFor sq question s) = some (d s)) →
      fanout rag sq question (pre ++ f :: post) =
        ⟨(pre ++ [f]).map (fun s => Event.ragCall s (qFor sq question s)),
         pre.map (fun s => ⟨s, (d s).response_text, (d s).groundingChunks⟩),
         (pre.map (fun s => chunkTexts (d s).groundingChunks)).flatten,
         some f⟩ := by
  intro pre
  induction pre with
  | nil => intro _; simp [fanout, hf]
  | cons s rest ih =>
    intro h
    have hs := h s (List.mem_cons_self s rest)
    have hrest := ih (fun x hx => h x (List.mem_cons_of_mem s hx))
    simp [fanout, hs, hrest]

/-- Every event the fan-out loop emits is a retrieval call. -/
theorem fanout_events_ragCalls (rag : String → String → Option RagData)
    (sq : List (String × String)) (question : String) :
    ∀ ss : List String, ∀ e ∈ (fanout rag sq question ss).events, isRagCallEv e = true := by
  intro ss
  induction ss with
  | nil => intro e he; simp [fanout] at he
  | cons s rest ih =>
    intro e he
    rcases hr : rag s (qFor sq question s) with _ | d
    · simp [fanout, hr] at he
      simp [he, isRagCallEv]
    · simp [fanout, hr] at he
      rcases he with he | he
      · simp [he, isRagCallEv]
      · exact ih e he

/-- Any store the fan-out loop records as failed was itself queried. -/
theorem fanout_failed_called (rag : String → String → Option RagData)
    (sq : List (String × String)) (question : String) :
    ∀ ss : List String, ∀ f, (fanout rag sq question ss).failed = some f →
      f ∈ (fanout rag sq question ss).events.filterMap evCallStore := by
  intro ss
  induction ss with
  | nil => intro f hf; simp [fanout] at hf
  | cons s rest ih =>
    intro f hf
    rcases hr : rag s (qFor sq question s) with _ | d
    · simp [fanout, hr] at hf
      subst hf
      simp [fanout, hr, List.filterMap_cons, evCallStore]
    · have hf2 : (fanout rag sq question rest).failed = some f := by
        simpa [fanout, hr] using hf
      have hmem := ih f hf2
      have hev : (fanout rag sq question (s :: rest)).events
          = Event.ragCall s (qFor sq question s) :: (fanout rag sq question rest).events := by
        simp [fanout, hr]
      rw [hev, List.filterMap_cons]
      simpa [evCallStore] using Or.inr hmem

/-- The stores of the accumulated results form an order-preserving sublist of
the stores actually queried. -/
theorem fanout_results_order (rag : String → String → Option RagData)
    (sq : List (String × String)) (question : String) :
    ∀ ss : List String,
      ((fanout rag sq question ss).results.map (fun r => r.store)).Sublist
        ((fanout rag sq question ss).events.filterMap evCallStore) := by
  intro ss
  induction ss with
  | nil => simp [fanout]
  | cons s rest ih =>
    rcases hr : rag s (qFor sq question s) with _ | d
    · simp [fanout, hr]
    · simp only [fanout, hr]
      simp only [List.map_cons, List.filterMap_cons, evCallStore]
      exact List.Sublist.cons₂ s ih

/-- Validation and student lookup reduce the handler to `askWithStudent`. -/
theorem askHandler_validated (env : AskEnv) (req : AskReq) (email question : String)
    (he : truthyStr req.email = some email) (hq : truthyStr req.question = some question)
    (student : Student) (hs : env.readStudent email = some student) :
    askHandler env req = askWithStudent env req email question student := by
  simp only [askHandler, he, hq, hs]

/-- With no accessible stores the pipeline answers immediately and schedules
nothing. -/
theorem askWithStudent_eq_noStores (env : AskEnv) (req : AskReq) (email question : String)
    (student : Student) (hacc : student.accessibleStores = []) :
    askWithStudent env req email question student =
      [Event.respond (Resp.noStores none noStoresAnswer [] [])] := by
  simp [askWithStudent, hacc]

/-- With a classifier that selects no store the pipeline produces the
no-department trace. -/
theorem askWithStudent_eq_noneSel (env : AskEnv) (req : AskReq) (email question : String)
    (student : Student) (hacc : student.accessibleStores ≠ [])
    (sq : List (String × String)) (un : List Unanswered)
    (hc : env.classify (geminiKeyOf env student)
        (student.accessibleStores.map (fun s => s.storeName)) question = ⟨[], sq, un⟩) :
    askWithStudent env req email question student =
      noneSelTrace email question (sidOf env req) (generateSessionName (some question))
        (isNewOf req) un env.now := by
  have hmap : ¬ student.accessibleStores.map (fun s => s.storeName) = [] := by
    simpa using hacc
  simp only [askWithStudent, if_neg hmap, hc]

/-- With a nonempty store selection whose fan-out fails at `fstore` the
pipeline produces the short-circuit failure trace. -/
theorem askWithStudent_eq_fail (env : AskEnv) (req : AskReq) (email question : String)
    (student : Student) (hacc : student.accessibleStores ≠ [])
    (s0 : String) (srest : List String) (sq : List (String × String)) (un : List Unanswered)
    (hc : env.classify (geminiKeyOf env student)
        (student.accessibleStores.map (fun s => s.storeName)) question = ⟨s0 :: srest, sq, un⟩)
    (fstore : String)
    (hfo : (fanout (fun s q => env.ragService (geminiKeyOf env student) [s] q) sq question
        (s0 :: srest)).failed = some fstore) :
    askWithStudent env req email question student =
      failTrace student.accessibleStores email question (sidOf env req)
        (generateSessionName (some question)) (isNewOf req) sq
        (fanout (fun s q => env.ragService (geminiKeyOf env student) [s] q) sq question
          (s0 :: srest)) fstore env.now := by
  have hmap : ¬ student.accessibleStores.map (fun s => s.storeName) = [] := by
    simpa using hacc
  simp only [askWithStudent, if_neg hmap, hc, hfo]

/-- With a nonempty store selection whose fan-out all succeeds the pipeline
produces the all-succeed trace. -/
theorem askWithStudent_eq_success (env : AskEnv) (req : AskReq) (email question : String)
    (student : Student) (hacc : student.accessibleStores ≠ [])
    (s0 : String) (srest : List String) (sq : List (String × String)) (un : List Unanswered)
    (hc : env.classify (geminiKeyOf env student)
        (student.accessibleStores.map (fun s => s.storeName)) question = ⟨s0 :: srest, sq, un⟩)
    (hfo : (fanout (fun s q => env.ragService (geminiKeyOf env student) [s] q) sq question
        (s0 :: srest)).failed = none) :
    askWithStudent env req email question student =
      successTrace student.accessibleStores email question (sidOf env req)
        (generateSessionName (some question)) (isNewOf req) sq (s0 :: srest)
        (fanout (fun s q => env.ragService (geminiKeyOf env student) [s] q) sq question
          (s0 :: srest)) env.now := by
  have hmap : ¬ student.accessibleStores.map (fun s => s.storeName) = [] := by
    simpa using hacc
  simp only [askWithStudent, if_neg hmap, hc, hfo]

/-- The success-branch provider-log events record exactly the result stores,
in order. -/
theorem provLogs_stores (accessible : List AccessibleStore) (email question : String)
    (sq : List (String × String)) (results : List RagResult) (now : String) :
    (results.map (fun r =>
      Event.provLog ((resolveProvider accessible r.store).getD "unknown")
        ⟨resolveProvider accessible r.store, email, r.store, qFor sq question r.store,
         some r.answerText, some r.groundingChunks, now⟩)).filterMap evLogStore
      = results.map (fun r => r.store) := by
  induction results with
  | nil => rfl
  | cons r rs ih => simp [List.filterMap_cons, evLogStore, ih]

/-- C4: for every request, the trace of `POST /ask` is some retrieval calls,
then exactly one HTTP response, then only persistence steps, and those steps
come in program order — an optional session create, then an optional message
append, then provider logs whose store order follows the order the stores
were queried. -/
theorem claim4_response_precedes_persistence (env : AskEnv) (req : AskReq) :
    ∃ calls r post,
      askHandler env req = calls ++ Event.respond r :: post ∧
      (∀ e ∈ calls, isRagCallEv e = true) ∧
      ∃ creates appends logs,
        post = creates ++ appends ++ logs ∧
        (creates = [] ∨ ∃ a b c dts, creates = [Event.sessionCreate a b c dts]) ∧
        (appends = [] ∨ ∃ a b m, appends = [Event.msgAppend a b m]) ∧
        (∀ e ∈ logs, isProvLogEv e = true) ∧
        (logs.filterMap evLogStore).Sublist (calls.filterMap evCallStore) := by
  rcases he : truthyStr req.email with _ | email
  · exact ⟨[], Resp.badRequest "email & question required", [],
      by simp [askHandler, he], by simp, [], [], [], by simp,
      Or.inl rfl, Or.inl rfl, by simp, by simp⟩
  rcases hq : truthyStr req.question with _ | question
  · exact ⟨[], Resp.badRequest "email & question required", [],
      by simp [askHandler, he, hq], by simp, [], [], [], by simp,
      Or.inl rfl, Or.inl rfl, by simp, by simp⟩
  rcases hst : env.readStudent email with _ | student
  · exact ⟨[], Resp.notFound "Student not found", [],
      by simp [askHandler, he, hq, hst], by simp, [], [], [], by simp,
      Or.inl rfl, Or.inl rfl, by simp, by simp⟩
  have hred := askHandler_validated env req email question he hq student hst
  by_cases hacc : student.accessibleStores = []
  · exact ⟨[], Resp.noStores none noStoresAnswer [] [], [],
      by rw [hred, askWithStudent_eq_noStores env req email question student hacc]; rfl,
      by simp, [], [], [], by simp, Or.inl rfl, Or.inl rfl, by simp, by simp⟩
  rcases hc : env.classify (geminiKeyOf env student)
      (student.accessibleStores.map (fun s => s.storeName)) question with ⟨cstores, sq, un⟩
  rcases cstores with _ | ⟨s0, srest⟩
  · refine ⟨[], Resp.noneSelected (sidOf env req) noneSelAnswer [] un,
      createEventsOf (isNewOf req) email (sidOf env req)
        (generateSessionName (some question)) env.now ++
        [Event.msgAppend email (sidOf env req)
          ⟨"assistant", question, noneSelAnswer, [], [], env.now, some un, none⟩], ?_, by simp,
      createEventsOf (isNewOf req) email (sidOf env req)
        (generateSessionName (some question)) env.now,
      [Event.msgAppend email (sidOf env req)
        ⟨"assistant", question, noneSelAnswer, [], [], env.now, some un, none⟩], [],
      by simp, ?_, Or.inr ⟨_, _, _, rfl⟩, by simp, by simp⟩
    · rw [hred, askWithStudent_eq_noneSel env req email question student hacc sq un hc]
      rfl
    · cases hnew : isNewOf req
      · exact Or.inl (by simp [createEventsOf, hnew])
      · exact Or.inr ⟨email, sidOf env req, generateSessionName (some question), env.now,
          by simp [createEventsOf, hnew]⟩
  rcases hfo : (fanout (fun s q => env.ragService (geminiKeyOf env student) [s] q) sq question
      (s0 :: srest)).failed with _ | fstore
  · -- all-succeed branch
    refine ⟨(fanout (fun s q => env.ragService (geminiKeyOf env student) [s] q) sq question
        (s0 :: srest)).events,
      Resp.success (sidOf env req)
        (mergeAnswers (fanout (fun s q => env.ragService (geminiKeyOf env student) [s] q) sq
          question (s0 :: srest)).results) (s0 :: srest)
        (fanout (fun s q => env.ragService (geminiKeyOf env student) [s] q) sq question
          (s0 :: srest)).grounding,
      successPersist student.accessibleStores email question (sidOf env req)
        (generateSessionName (some question)) (isNewOf req) sq (s0 :: srest)
        (fanout (fun s q => env.ragService (geminiKeyOf env student) [s] q) sq question
          (s0 :: srest)).results
        (fanout (fun s q => env.ragService (geminiKeyOf env student) [s] q) sq question
          (s0 :: srest)).grounding env.now,
      ?_, fanout_events_ragCalls _ sq question (s0 :: srest),
      createEventsOf (isNewOf req) email (sidOf env req)
        (generateSessionName (some question)) env.now,
      [Event.msgAppend email (sidOf env req)
        ⟨"assistant", question,
         mergeAnswers (fanout (fun s q => env.ragService (geminiKeyOf env student) [s] q) sq
           question (s0 :: srest)).results, s0 :: srest,
         (fanout (fun s q => env.ragService (geminiKeyOf env student) [s] q) sq question
           (s0 :: srest)).grounding, env.now, none, none⟩],
      (fanout (fun s q => env.ragService (geminiKeyOf env student) [s] q) sq question
        (s0 :: srest)).results.map (fun r =>
          Event.provLog ((resolveProvider student.accessibleStores r.store).getD "unknown")
            ⟨resolveProvider student.accessibleStores r.store, email, r.store,
             qFor sq question r.store, some r.answerText, some r.groundingChunks, env.now⟩),
      by simp [successPersist, mergeAnswers], ?_, Or.inr ⟨_, _, _, rfl⟩,
      by simp [isProvLogEv], ?_⟩
    · rw [hred, askWithStudent_eq_success env req email question student hacc s0 srest sq un hc
        hfo]
      rfl
    · cases hnew : isNewOf req
      · exact Or.inl (by simp [createEventsOf, hnew])
      · exact Or.inr ⟨email, sidOf env req, generateSessionName (some question), env.now,
          by simp [createEventsOf, hnew]⟩
    · rw [provLogs_stores]
      exact fanout_results_order _ sq question (s0 :: srest)
  · -- short-circuit failure branch
    refine ⟨(fanout (fun s q => env.ragService (geminiKeyOf env student) [s] q) sq question
        (s0 :: srest)).events,
      Resp.ragFailed (sidOf env req) apologyAnswer
        (resolveProvider student.accessibleStores fstore),
      failPersist student.accessibleStores email question (sidOf env req)
        (generateSessionName (some question)) (isNewOf req) sq fstore env.now,
      ?_, fanout_events_ragCalls _ sq question (s0 :: srest),
      createEventsOf (isNewOf req) email (sidOf env req)
        (generateSessionName (some question)) env.now,
      [Event.msgAppend email (sidOf env req)
        ⟨"assistant", question, apologyAnswer, [fstore], [], env.now, none,
         some (resolveProvider student.accessibleStores fstore)⟩],
      (match resolveProvider student.accessibleStores fstore with
       | some p => [Event.provLog p ⟨some p, email, fstore, qFor sq question fstore, none,
           none, env.now⟩]
       | none => []),
      by simp [failPersist], ?_, Or.inr ⟨_, _, _, rfl⟩, ?_, ?_⟩
    · rw [hred, askWithStudent_eq_fail env req email question student hacc s0 srest sq un hc
        fstore hfo]
      rfl
    · cases hnew : isNewOf req
      · exact Or.inl (by simp [createEventsOf, hnew])
      · exact Or.inr ⟨email, sidOf env req, generateSessionName (some question), env.now,
          by simp [createEventsOf, hnew]⟩
    · rcases resolveProvider student.accessibleStores fstore with _ | p
      · simp
      · simp [isProvLogEv]
    · rcases hrp : resolveProvider student.accessibleStores fstore with _ | p
      · simp [hrp]
      · simp only [hrp, List.filterMap_cons, evLogStore]
        have hmem := fanout_failed_called
          (fun s q => env.ragService (geminiKeyOf env student) [s] q) sq question
          (s0 :: srest) fstore hfo
        simpa [List.singleton_sublist] using hmem

/-- No event of the failure-branch background persistence is a retrieval
call. -/
theorem failPersist_no_ragCall (accessible : List AccessibleStore)
    (email question sid name : String) (isNew : Bool) (sq : List (String × String))
    (fstore now : String) :
    ∀ e ∈ failPersist accessible email question sid name isNew sq fstore now,
      isRagCallEv e = false := by
  intro e he
  simp only [failPersist] at he
  rcases List.mem_append.mp he with h | h
  · cases isNew
    · simp [createEventsOf] at h
    · simp [createEventsOf] at h
      simp [h, isRagCallEv]
  · rcases List.mem_cons.mp h with h | h
    · simp [h, isRagCallEv]
    · rcases hr : resolveProvider accessible fstore with _ | p
      · rw [hr] at h
        simp at h
      · rw [hr] at h
        simp at h
        simp [h, isRagCallEv]

/-- C1: when the classifier selects `pre ++ f :: post` and `f` is the first
store whose retrieval call fails, the handler calls exactly the stores up to
and including `f` (none after it), immediately responds with the fixed
apology carrying the failed store's resolved provider, the tail of the trace
contains no retrieval call, and exactly `pre.length` (that is, k−1) stores
have produced answer segments. -/
theorem claim1_short_circuit (env : AskEnv) (req : AskReq) (email question : String)
    (he : truthyStr req.email = some email) (hq : truthyStr req.question = some question)
    (student : Student) (hs : env.readStudent email = some student)
    (hacc : student.accessibleStores ≠ [])
    (sq : List (String × String)) (un : List Unanswered)
    (pre : List String) (f : String) (post : List String)
    (hc : env.classify (geminiKeyOf env student)
        (student.accessibleStores.map (fun s => s.storeName)) question
        = ⟨pre ++ f :: post, sq, un⟩)
    (d : String → RagData)
    (hok : ∀ s ∈ pre, env.ragService (geminiKeyOf env student) [s] (qFor sq question s)
        = some (d s))
    (hf : env.ragService (geminiKeyOf env student) [f] (qFor sq question f) = none) :
    askHandler env req =
      (pre ++ [f]).map (fun s => Event.ragCall s (qFor sq question s)) ++
      Event.respond (Resp.ragFailed (sidOf env req) apologyAnswer
        (resolveProvider student.accessibleStores f)) ::
      failPersist student.accessibleStores email question (sidOf env req)
        (generateSessionName (some question)) (isNewOf req) sq f env.now ∧
    (∀ e ∈ failPersist student.accessibleStores email question (sidOf env req)
        (generateSessionName (some question)) (isNewOf req) sq f env.now,
      isRagCallEv e = false) ∧
    (fanout (fun s q => env.ragService (geminiKeyOf env student) [s] q) sq question
      (pre ++ f :: post)).results.length = pre.length := by
  have hfan := fanout_first_fail
    (fun s q => env.ragService (geminiKeyOf env student) [s] q) sq question d f post hf pre hok
  have hfo : (fanout (fun s q => env.ragService (geminiKeyOf env student) [s] q) sq question
      (pre ++ f :: post)).failed = some f := by rw [hfan]
  refine ⟨?_, failPersist_no_ragCall _ _ _ _ _ _ _ _ _, by rw [hfan]; simp⟩
  rcases pre with _ | ⟨p0, ps⟩
  · rw [askHandler_validated env req email question he hq student hs,
      askWithStudent_eq_fail env req email question student hacc f post sq un hc f hfo]
    simp only [List.nil_append] at hfan
    simp only [failTrace]
    rw [hfan]
    simp
  · rw [askHandler_validated env req email question he hq student hs,
      askWithStudent_eq_fail env req email question student hacc p0 (ps ++ f :: post) sq un hc
        f hfo]
    simp only [List.cons_append] at hfan
    simp only [failTrace]
    rw [hfan]
    simp

/-- Witness account with two accessible stores owned by two providers. -/
def w1Student : Student :=
  ⟨[⟨"s1", some "p1"⟩, ⟨"s2", some "p2"⟩], "uni@x"⟩

/-- Witness environment where store "s1" answers and store "s2" fails. -/
def w1Env : AskEnv :=
  ⟨fun e => if e = "stu@x" then some w1Student else none,
   fun _ => none,
   fun _ stores _ => if stores = ["s1"] then some ⟨"answer one", []⟩ else none,
   fun _ _ _ => ⟨["s1", "s2"], [], []⟩,
   "fresh1", "t0"⟩

/-- Witness request minting a new session. -/
def w1Req : AskReq := ⟨some "stu@x", some "q1", none⟩

/-- Witness for C1: concrete two-store request failing at position 2. -/
theorem claim1_witness :
    askHandler w1Env w1Req =
      (["s1"] ++ ["s2"]).map (fun s => Event.ragCall s (qFor [] "q1" s)) ++
      Event.respond (Resp.ragFailed (sidOf w1Env w1Req) apologyAnswer
        (resolveProvider w1Student.accessibleStores "s2")) ::
      failPersist w1Student.accessibleStores "stu@x" "q1" (sidOf w1Env w1Req)
        (generateSessionName (some "q1")) (isNewOf w1Req) [] "s2" w1Env.now ∧
    (∀ e ∈ failPersist w1Student.accessibleStores "stu@x" "q1" (sidOf w1Env w1Req)
        (generateSessionName (some "q1")) (isNewOf w1Req) [] "s2" w1Env.now,
      isRagCallEv e = false) ∧
    (fanout (fun s q => w1Env.ragService (geminiKeyOf w1Env w1Student) [s] q) [] "q1"
      (["s1"] ++ "s2" :: [])).results.length = ["s1"].length :=
  claim1_short_circuit w1Env w1Req "stu@x" "q1" rfl rfl w1Student rfl (by decide)
    [] [] ["s1"] "s2" [] rfl (fun _ => ⟨"answer one", []⟩)
    (by intro s hs; simp at hs; subst hs; rfl) rfl

/-- Merge of two or more results is the labeled-section concatenation. -/
theorem mergeAnswers_two_le (r1 r2 : RagResult) (rs : List RagResult) :
    mergeAnswers (r1 :: r2 :: rs) =
      String.intercalate "\n\n" ((r1 :: r2 :: rs).map
        (fun r => "**" ++ r.store ++ "**:\n" ++ r.answerText)) := by
  simp [mergeAnswers]

/-- C2: when every selected store answers, the handler queries every selected
store in classifier order and responds with the merged answer — the single
store's raw text for one store, the labeled sections in order for two or more
— and with the grounding flattened store by store, then chunk by chunk;
persistence follows. -/
theorem claim2_all_succeed_merge (env : AskEnv) (req : AskReq) (email question : String)
    (he : truthyStr req.email = some email) (hq : truthyStr req.question = some question)
    (student : Student) (hs : env.readStudent email = some student)
    (hacc : student.accessibleStores ≠ [])
    (sq : List (String × String)) (un : List Unanswered) (s0 : String) (srest : List String)
    (hc : env.classify (geminiKeyOf env student)
        (student.accessibleStores.map (fun s => s.storeName)) question
        = ⟨s0 :: srest, sq, un⟩)
    (d : String → RagData)
    (hok : ∀ s ∈ s0 :: srest,
      env.ragService (geminiKeyOf env student) [s] (qFor sq question s) = some (d s)) :
    askHandler env req =
      (s0 :: srest).map (fun s => Event.ragCall s (qFor sq question s)) ++
      Event.respond (Resp.success (sidOf env req)
        (mergeAnswers ((s0 :: srest).map
          (fun s => ⟨s, (d s).response_text, (d s).groundingChunks⟩)))
        (s0 :: srest)
        (((s0 :: srest).map (fun s => chunkTexts (d s).groundingChunks)).flatten)) ::
      successPersist student.accessibleStores email question (sidOf env req)
        (generateSessionName (some question)) (isNewOf req) sq (s0 :: srest)
        ((s0 :: srest).map (fun s => ⟨s, (d s).response_text, (d s).groundingChunks⟩))
        (((s0 :: srest).map (fun s => chunkTexts (d s).groundingChunks)).flatten) env.now ∧
    (∀ s1, s0 :: srest = [s1] →
      mergeAnswers ((s0 :: srest).map
        (fun s => ⟨s, (d s).response_text, (d s).groundingChunks⟩))
        = (d s1).response_text) ∧
    (2 ≤ (s0 :: srest).length →
      mergeAnswers ((s0 :: srest).map
        (fun s => ⟨s, (d s).response_text, (d s).groundingChunks⟩))
        = String.intercalate "\n\n" ((s0 :: srest).map
            (fun s => "**" ++ s ++ "**:\n" ++ (d s).response_text))) := by
  have hfan := fanout_all_ok
    (fun s q => env.ragService (geminiKeyOf env student) [s] q) sq question d (s0 :: srest) hok
  have hfo : (fanout (fun s q => env.ragService (geminiKeyOf env student) [s] q) sq question
      (s0 :: srest)).failed = none := by rw [hfan]
  refine ⟨?_, ?_, ?_⟩
  · rw [askHandler_validated env req email question he hq student hs,
      askWithStudent_eq_success env req email question student hacc s0 srest sq un hc hfo]
    simp only [successTrace]
    rw [hfan]
  · intro s1 h
    rw [h]
    simp [mergeAnswers]
  · intro h2
    rcases srest with _ | ⟨b, bs⟩
    · simp at h2
    · simp only [List.map_cons]
      rw [mergeAnswers_two_le]
      simp [Function.comp_def]

/-- Witness account for the end-to-end two-store success scenario. -/
def w2Student : Student :=
  ⟨[⟨"admissions", some "adm@uni"⟩, ⟨"library", some "lib@uni"⟩], "uni@x"⟩

/-- Witness environment where both selected stores answer, with a split
question for the library store. -/
def w2Env : AskEnv :=
  ⟨fun e => if e = "stu@x" then some w2Student else none,
   fun _ => none,
   fun _ stores _ =>
     if stores = ["admissions"] then some ⟨"9am", [⟨some "gA"⟩]⟩
     else if stores = ["library"] then some ⟨"8am-10pm", [⟨some "gL"⟩]⟩
     else none,
   fun _ _ _ => ⟨["admissions", "library"], [("library", "When does the library open?")], []⟩,
   "fresh2", "t0"⟩

/-- Witness request for the two-store success scenario. -/
def w2Req : AskReq := ⟨some "stu@x", some "Apply deadline and library hours?", none⟩

/-- Witness per-store RAG payloads for the success scenario. -/
def w2d : String → RagData :=
  fun s => if s = "admissions" then ⟨"9am", [⟨some "gA"⟩]⟩ else ⟨"8am-10pm", [⟨some "gL"⟩]⟩

/-- Witness for C2: the concrete two-store all-succeed request. -/
theorem claim2_witness :
    askHandler w2Env w2Req =
      (["admissions", "library"]).map (fun s =>
        Event.ragCall s (qFor [("library", "When does the library open?")]
          "Apply deadline and library hours?" s)) ++
      Event.respond (Resp.success (sidOf w2Env w2Req)
        (mergeAnswers ((["admissions", "library"]).map
          (fun s => ⟨s, (w2d s).response_text, (w2d s).groundingChunks⟩)))
        ["admissions", "library"]
        (((["admissions", "library"]).map
          (fun s => chunkTexts (w2d s).groundingChunks)).flatten)) ::
      successPersist w2Student.accessibleStores "stu@x" "Apply deadline and library hours?"
        (sidOf w2Env w2Req)
        (generateSessionName (some "Apply deadline and library hours?")) (isNewOf w2Req)
        [("library", "When does the library open?")] ["admissions", "library"]
        ((["admissions", "library"]).map
          (fun s => ⟨s, (w2d s).response_text, (w2d s).groundingChunks⟩))
        (((["admissions", "library"]).map
          (fun s => chunkTexts (w2d s).groundingChunks)).flatten) w2Env.now ∧
    (∀ s1, ["admissions", "library"] = [s1] →
      mergeAnswers ((["admissions", "library"]).map
        (fun s => ⟨s, (w2d s).response_text, (w2d s).groundingChunks⟩))
        = (w2d s1).response_text) ∧
    (2 ≤ (["admissions", "library"] : List String).length →
      mergeAnswers ((["admissions", "library"]).map
        (fun s => ⟨s, (w2d s).response_text, (w2d s).groundingChunks⟩))
        = String.intercalate "\n\n" ((["admissions", "library"]).map
            (fun s => "**" ++ s ++ "**:\n" ++ (w2d s).response_text))) :=
  claim2_all_succeed_merge w2Env w2Req "stu@x" "Apply deadline and library hours?" rfl rfl
    w2Student rfl (by decide) [("library", "When does the library open?")] [] "admissions"
    ["library"] rfl w2d
    (by intro s hs; simp at hs; rcases hs with h | h <;> subst h <;> rfl)

/-- C5: a valid request whose resolved account has zero accessible stores gets
the fixed no-stores response with empty `storesUsed` and empty grounding, and
the request's trace contains no persistence step whatsoever. -/
theorem claim5_zero_stores_no_persistence (env : AskEnv) (req : AskReq)
    (email question : String)
    (he : truthyStr req.email = some email) (hq : truthyStr req.question = some question)
    (student : Student) (hs : env.readStudent email = some student)
    (hacc : student.accessibleStores = []) :
    askHandler env req = [Event.respond (Resp.noStores none noStoresAnswer [] [])] ∧
    (askHandler env req).filter isPersistEv = [] := by
  have h1 : askHandler env req = [Event.respond (Resp.noStores none noStoresAnswer [] [])] := by
    rw [askHandler_validated env req email question he hq student hs,
      askWithStudent_eq_noStores env req email question student hacc]
  exact ⟨h1, by rw [h1]; rfl⟩

/-- Witness account with no accessible stores. -/
def w5Student : Student := ⟨[], "uni@x"⟩

/-- Witness environment for the zero-stores branch. -/
def w5Env : AskEnv :=
  ⟨fun e => if e = "stu@x" then some w5Student else none,
   fun _ => none, fun _ _ _ => none, fun _ _ _ => ⟨[], [], []⟩, "fresh5", "t0"⟩

/-- Witness request for the zero-stores branch. -/
def w5Req : AskReq := ⟨some "stu@x", some "hello", none⟩

/-- Witness for C5: concrete zero-stores request. -/
theorem claim5_witness :
    askHandler w5Env w5Req = [Event.respond (Resp.noStores none noStoresAnswer [] [])] ∧
    (askHandler w5Env w5Req).filter isPersistEv = [] :=
  claim5_zero_stores_no_persistence w5Env w5Req "stu@x" "hello" rfl rfl w5Student rfl rfl

/-- C10: in the zero-accessible-stores branch the response's `sessionId` field
is the literal null even when the caller supplied a session id, and the trace
does not depend on the fresh-id generator — no session id is minted. -/
theorem claim10_zero_stores_null_sessionId (env : AskEnv) (req : AskReq)
    (email question : String)
    (he : truthyStr req.email = some email) (hq : truthyStr req.question = some question)
    (student : Student) (hs : env.readStudent email = some student)
    (hacc : student.accessibleStores = [])
    (suppliedSid : String) (hsid : req.sessionId = some suppliedSid) :
    askHandler env req = [Event.respond (Resp.noStores none noStoresAnswer [] [])] ∧
    (∀ fid1 fid2 : String,
      askHandler { env with freshId := fid1 } req
        = askHandler { env with freshId := fid2 } req) := by
  constructor
  · rw [askHandler_validated env req email question he hq student hs,
      askWithStudent_eq_noStores env req email question student hacc]
  · intro fid1 fid2
    have h1 : askHandler { env with freshId := fid1 } req
        = [Event.respond (Resp.noStores none noStoresAnswer [] [])] := by
      rw [askHandler_validated { env with freshId := fid1 } req email question he hq student hs,
        askWithStudent_eq_noStores { env with freshId := fid1 } req email question student hacc]
    have h2 : askHandler { env with freshId := fid2 } req
        = [Event.respond (Resp.noStores none noStoresAnswer [] [])] := by
      rw [askHandler_validated { env with freshId := fid2 } req email question he hq student hs,
        askWithStudent_eq_noStores { env with freshId := fid2 } req email question student hacc]
    rw [h1, h2]

/-- Witness request supplying a session id to the zero-stores account. -/
def w10Req : AskReq := ⟨some "stu@x", some "hello", some "session_supplied_1"⟩

/-- Witness for C10: the supplied session id is ignored and the response's
`sessionId` is null. -/
theorem claim10_witness :
    askHandler w5Env w10Req = [Event.respond (Resp.noStores none noStoresAnswer [] [])] ∧
    (∀ fid1 fid2 : String,
      askHandler { w5Env with freshId := fid1 } w10Req
        = askHandler { w5Env with freshId := fid2 } w10Req) :=
  claim10_zero_stores_null_sessionId w5Env w10Req "stu@x" "hello" rfl rfl w5Student rfl rfl
    "session_supplied_1" rfl

/-- C6 counterexample: the question " hi" has one whitespace-separated word,
so the claim demands the verbatim name " hi", but the code derives the name
from the TRIMMED question and returns "hi". -/
theorem claim6_counterexample :
    generateSessionName (some " hi") = "hi" ∧ ¬ generateSessionName (some " hi") = " hi" := by
  decide

/-- C6 (amended): for every nonempty question the derived session name is the
TRIMMED question when the trimmed question has at most 10 whitespace-separated
words, and the first 10 words joined by single spaces plus "..." otherwise;
the 7-word example (which carries no surrounding whitespace) still maps to
itself, and an 11-word question is truncated. -/
theorem claim6_amended_trimmed_name :
    (∀ q : String, q ≠ "" →
      generateSessionName (some q) =
        (if (jsSplitWs (jsTrim q)).length ≤ 10 then jsTrim q
         else String.intercalate " " ((jsSplitWs (jsTrim q)).take 10) ++ "...")) ∧
    generateSessionName (some "What time does the library open on weekdays?")
      = "What time does the library open on weekdays?" ∧
    generateSessionName (some "one two three four five six seven eight nine ten eleven")
      = "one two three four five six seven eight nine ten..." := by
  refine ⟨?_, by decide, by decide⟩
  intro q hq
  simp [generateSessionName, hq]

/-- Witness for the amended C6 at a concrete short question. -/
theorem claim6_amended_witness :
    ("seven words" : String) ≠ "" ∧ generateSessionName (some "seven words") = "seven words" :=
  ⟨by decide, claim6_amended_trimmed_name.1 "seven words" (by decide)⟩

/-- C7: creating a fresh session, appending a message, and reading it back
returns exactly that message with unchanged fields; appending two messages
returns them in order. -/
theorem claim7_round_trip (fs : Store) (owner sid name n1 n2 n3 : String)
    (M M1 M2 : Message) :
    getSessionRoute
      (appendMessageToSessionFile (createSessionFile fs owner sid name n1) owner sid M n2)
      owner sid
      = some ⟨sid, name, owner, n1, n2, [M]⟩ ∧
    getSessionRoute
      (appendMessageToSessionFile
        (appendMessageToSessionFile (createSessionFile fs owner sid name n1) owner sid M1 n2)
        owner sid M2 n3)
      owner sid
      = some ⟨sid, name, owner, n1, n3, [M1, M2]⟩ := by
  constructor <;>
    simp [getSessionRoute, appendMessageToSessionFile, createSessionFile]

/-- Demo session created first (older `createdAt`). -/
def oldDemoSession : Session :=
  ⟨"sidOld", "old question", "u@x", "2024-01-01T00:00:00.000Z", "2024-01-01T00:00:00.000Z", []⟩

/-- Demo session created later (newer `createdAt`). -/
def newDemoSession : Session :=
  ⟨"sidNew", "new question", "u@x", "2025-06-01T00:00:00.000Z", "2025-06-01T00:00:00.000Z", []⟩

/-- Demo chat-directory listing with the older session listed first. -/
def demoDir : List (String × Session) :=
  [("u@x__sidOld.json", oldDemoSession), ("u@x__sidNew.json", newDemoSession)]

/-- C8 (code bug): the comparator subtracts ISO-8601 strings, which is NaN in
JavaScript, and ECMAScript SortCompare coerces a NaN comparator result to +0,
so the "sort newest first" line is a no-op — the listing keeps readdir order
and here returns the strictly older session first. -/
theorem claim8_sort_is_noop :
    listSessions demoDir "u@x" =
      [⟨"sidOld", "old question", "2024-01-01T00:00:00.000Z"⟩,
       ⟨"sidNew", "new question", "2025-06-01T00:00:00.000Z"⟩] ∧
    ("2024-01-01T00:00:00.000Z" : String).toList < "2025-06-01T00:00:00.000Z".toList := by
  constructor
  · rfl
  · decide

/-- Classifier reply containing two top-level JSON objects: not directly
parseable, and the code's first-brace-to-last-brace slice is not parseable
either, while the first balanced top-level structure is. -/
def badClassifierText : String :=
  "\x7b\"stores\":[\"s1\"],\"split_questions\":\x7b\x7d,\"unanswered\":[]\x7d \x7b\"x\":1\x7d"

/-- Parse of the first balanced top-level structure of `badClassifierText`. -/
def firstBalancedResult : Json :=
  Json.obj [("stores", Json.arr [Json.str "s1"]),
            ("split_questions", Json.obj []),
            ("unanswered", Json.arr [])]

/-- C3 counterexample: on `badClassifierText` the code degrades to the
select-all fallback although the first balanced top-level structure exists and
parses to a different classification — the code does not "extract the first
balanced top-level structure", it slices to the LAST closing brace. -/
theorem claim3_counterexample :
    classifyStores (some "key") ["s1", "s2"] "q" (GeminiOutcome.returns badClassifierText)
      = selectAllFallback ["s1", "s2"] ∧
    Json.parse (jsTrim badClassifierText) = none ∧
    (extractFirstBalanced (jsTrim badClassifierText)).bind Json.parse
      = some firstBalancedResult ∧
    ¬ selectAllFallback ["s1", "s2"] = firstBalancedResult := by
  refine ⟨rfl, rfl, rfl, ?_⟩
  intro h
  simp [selectAllFallback, firstBalancedResult] at h

/-- C3 (amended): `classifyStores` never throws and resolves on every path —
no (truthy) credential gives the select-all fallback; a thrown external call
gives the select-all fallback; an EMPTY response text gives the empty
classification (not the select-all fallback); a directly parseable trimmed
response is returned as parsed (unvalidated); otherwise the slice from the
first opening brace to the LAST closing brace (not the first balanced
structure) is parsed and returned; and only when that also fails does it
degrade to the select-all fallback. -/
theorem claim3_amended_fallback_chain :
    (∀ (gk : Option String) (stores : List String) (question : String)
        (outcome : GeminiOutcome), truthyStr gk = none →
      classifyStores gk stores question outcome = selectAllFallback stores) ∧
    (∀ (k : String) (stores : List String) (question : String), k ≠ "" →
      classifyStores (some k) stores question GeminiOutcome.throws
        = selectAllFallback stores) ∧
    (∀ (k : String) (stores : List String) (question : String), k ≠ "" →
      classifyStores (some k) stores question (GeminiOutcome.returns "")
        = emptyClassification) ∧
    (∀ (k : String) (stores : List String) (question txt : String) (j : Json),
      k ≠ "" → txt ≠ "" → Json.parse (jsTrim txt) = some j →
      classifyStores (some k) stores question (GeminiOutcome.returns txt) = j) ∧
    (∀ (k : String) (stores : List String) (question txt : String) (j : Json),
      k ≠ "" → txt ≠ "" → Json.parse (jsTrim txt) = none →
      (sliceFirstToLastBrace (jsTrim txt)).bind Json.parse = some j →
      classifyStores (some k) stores question (GeminiOutcome.returns txt) = j) ∧
    (∀ (k : String) (stores : List String) (question txt : String),
      k ≠ "" → txt ≠ "" → Json.parse (jsTrim txt) = none →
      (sliceFirstToLastBrace (jsTrim txt)).bind Json.parse = none →
      classifyStores (some k) stores question (GeminiOutcome.returns txt)
        = selectAllFallback stores) := by
  refine ⟨?_, ?_, ?_, ?_, ?_, ?_⟩
  · intro gk stores question outcome hk
    simp [classifyStores, hk]
  · intro k stores question hk
    simp [classifyStores, truthyStr, hk]
  · intro k stores question hk
    simp [classifyStores, truthyStr, hk]
  · intro k stores question txt j hk ht hp
    simp [classifyStores, truthyStr, hk, ht, hp]
  · intro k stores question txt j hk ht hp hs
    rcases hsl : sliceFirstToLastBrace (jsTrim txt) with _ | sub
    · rw [hsl] at hs
      simp at hs
    · rw [hsl] at hs
      simp only [Option.some_bind] at hs
      simp [classifyStores, truthyStr, hk, ht, hp, hsl, hs]
  · intro k stores question txt hk ht hp hs
    rcases hsl : sliceFirstToLastBrace (jsTrim txt) with _ | sub
    · simp [classifyStores, truthyStr, hk, ht, hp, hsl]
    · rw [hsl] at hs
      simp only [Option.some_bind] at hs
      simp [classifyStores, truthyStr, hk, ht, hp, hsl, hs]

/-- Witness for the amended C3: a braceless, unparseable reply lands on the
select-all fallback. -/
theorem claim3_amended_witness :
    classifyStores (some "key") ["a", "b"] "q" (GeminiOutcome.returns "nope")
      = selectAllFallback ["a", "b"] :=
  claim3_amended_fallback_chain.2.2.2.2.2 "key" ["a", "b"] "q" "nope" (by decide) (by decide)
    rfl rfl

/-- C9 counterexample: in the scenario of `w1Env`, two stores are queried
(two retrieval calls) but only ONE provider-log entry is appended — the
failure branch logs only the failed attempt, so "exactly one ProviderLogEntry
per store that was actually queried" is false. -/
theorem claim9_counterexample :
    ((askHandler w1Env w1Req).filter isRagCallEv).length = 2 ∧
    ((askHandler w1Env w1Req).filter isProvLogEv).length = 1 := by
  constructor <;> rfl

/-- Retrieval-call events contribute nothing to the provider-log filter. -/
theorem filter_provLog_ragCalls (g : String → String) (ss : List String) :
    (ss.map (fun s => Event.ragCall s (g s))).filter isProvLogEv = [] := by
  induction ss with
  | nil => rfl
  | cons a l ih => simp [List.filter_cons, isProvLogEv, ih]

/-- C9 (amended): in the all-succeed branch exactly one ProviderLogEntry is
appended per queried store, in store order, keyed by the resolved provider or
the sentinel "unknown" and carrying the store's answer; in the short-circuit
failure branch only the failed attempt is logged, with a null response field,
and ONLY when its provider resolves — the k−1 succeeded stores are never
logged and no sentinel is used there. -/
theorem claim9_amended_provider_logs :
    (∀ (env : AskEnv) (req : AskReq) (email question : String),
      truthyStr req.email = some email → truthyStr req.question = some question →
      ∀ (student : Student), env.readStudent email = some student →
      student.accessibleStores ≠ [] →
      ∀ (sq : List (String × String)) (un : List Unanswered) (s0 : String)
        (srest : List String),
      env.classify (geminiKeyOf env student)
          (student.accessibleStores.map (fun s => s.storeName)) question
        = ⟨s0 :: srest, sq, un⟩ →
      ∀ d : String → RagData,
      (∀ s ∈ s0 :: srest,
        env.ragService (geminiKeyOf env student) [s] (qFor sq question s) = some (d s)) →
      (askHandler env req).filter isProvLogEv =
        (s0 :: srest).map (fun s =>
          Event.provLog ((resolveProvider student.accessibleStores s).getD "unknown")
            ⟨resolveProvider student.accessibleStores s, email, s, qFor sq question s,
             some (d s).response_text, some (d s).groundingChunks, env.now⟩)) ∧
    (∀ (env : AskEnv) (req : AskReq) (email question : String),
      truthyStr req.email = some email → truthyStr req.question = some question →
      ∀ (student : Student), env.readStudent email = some student →
      student.accessibleStores ≠ [] →
      ∀ (sq : List (String × String)) (un : List Unanswered) (pre : List String)
        (f : String) (post : List String),
      env.classify (geminiKeyOf env student)
          (student.accessibleStores.map (fun s => s.storeName)) question
        = ⟨pre ++ f :: post, sq, un⟩ →
      ∀ d : String → RagData,
      (∀ s ∈ pre,
        env.ragService (geminiKeyOf env student) [s] (qFor sq question s) = some (d s)) →
      env.ragService (geminiKeyOf env student) [f] (qFor sq question f) = none →
      (askHandler env req).filter isProvLogEv =
        (match resolveProvider student.accessibleStores f with
         | some p =>
           [Event.provLog p ⟨some p, email, f, qFor sq question f, none, none, env.now⟩]
         | none => [])) := by
  constructor
  · intro env req email question he hq student hs hacc sq un s0 srest hc d hok
    have hfan := fanout_all_ok
      (fun s q => env.ragService (geminiKeyOf env student) [s] q) sq question d
      (s0 :: srest) hok
    have hfo : (fanout (fun s q => env.ragService (geminiKeyOf env student) [s] q) sq question
        (s0 :: srest)).failed = none := by rw [hfan]
    rw [askHandler_validated env req email question he hq student hs,
      askWithStudent_eq_success env req email question student hacc s0 srest sq un hc hfo]
    simp only [successTrace, successPersist]
    rw [hfan]
    cases hnew : isNewOf req <;>
      simp [createEventsOf, List.filter_append, List.filter_cons, isProvLogEv,
        filter_provLog_ragCalls, List.map_map, Function.comp_def,
        List.filter_eq_self]
  · intro env req email question he hq student hs hacc sq un pre f post hc d hok hf
    have hfan := fanout_first_fail
      (fun s q => env.ragService (geminiKeyOf env student) [s] q) sq question d f post hf
      pre hok
    have hfo : (fanout (fun s q => env.ragService (geminiKeyOf env student) [s] q) sq question
        (pre ++ f :: post)).failed = some f := by rw [hfan]
    have htr : askHandler env req =
        (pre ++ [f]).map (fun s => Event.ragCall s (qFor sq question s)) ++
        Event.respond (Resp.ragFailed (sidOf env req) apologyAnswer
          (resolveProvider student.accessibleStores f)) ::
        failPersist student.accessibleStores email question (sidOf env req)
          (generateSessionName (some question)) (isNewOf req) sq f env.now := by
      rcases pre with _ | ⟨p0, ps⟩
      · rw [askHandler_validated env req email question he hq student hs,
          askWithStudent_eq_fail env req email question student hacc f post sq un hc f hfo]
        simp only [List.nil_append] at hfan
        simp only [failTrace]
        rw [hfan]
        simp
      · rw [askHandler_validated env req email question he hq student hs,
          askWithStudent_eq_fail env req email question student hacc p0 (ps ++ f :: post)
            sq un hc f hfo]
        simp only [List.cons_append] at hfan
        simp only [failTrace]
        rw [hfan]
        simp
    rw [htr]
    simp only [failPersist]
    rcases hrp : resolveProvider student.accessibleStores f with _ | p <;>
      cases hnew : isNewOf req <;>
        simp [hrp, createEventsOf, List.filter_append, List.filter_cons, isProvLogEv,
          filter_provLog_ragCalls]

/-- Witness for the amended C9: the two-store all-succeed scenario yields one
provider-log event per queried store, in store order. -/
theorem claim9_amended_witness :
    (askHandler w2Env w2Req).filter isProvLogEv =
      (["admissions", "library"]).map (fun s =>
        Event.provLog ((resolveProvider w2Student.accessibleStores s).getD "unknown")
          ⟨resolveProvider w2Student.accessibleStores s, "stu@x", s,
           qFor [("library", "When does the library open?")]
             "Apply deadline and library hours?" s,
           some (w2d s).response_text, some (w2d s).groundingChunks, w2Env.now⟩) :=
  claim9_amended_provider_logs.1 w2Env w2Req "stu@x" "Apply deadline and library hours?"
    rfl rfl w2Student rfl (by decide) [("library", "When does the library open?")] []
    "admissions" ["library"] rfl w2d
    (by intro s hs; simp at hs; rcases hs with h | h <;> subst h <;> rfl)
